import Mathlib

/-!
Verification of the Azure-Monitor-to-Slack alert function
(`src/azure_functions/function_app.py`) against its specification.

The Python code is shallowly embedded: Python values are `PyVal`,
raisable operations return `Except PyErr _` where `PyErr` names the
Python exception class, and the two outbound HTTP calls are abstracted
by outcome parameters (`FetchOutcome`, `SlackOutcome`) so that the
handler becomes a pure function of the request and those outcomes.
-/

/-- Error sentinel naming the Python exception class that would be raised. -/
abbrev PyErr := String

/-- Model of a Python/JSON value as it flows through the function app.
`PyVal.none` is Python `None`; `dict` is an insertion-ordered
association list, as Python dicts are. -/
inductive PyVal where
  | none : PyVal
  | str (s : String) : PyVal
  | int (n : Int) : PyVal
  | bool (b : Bool) : PyVal
  | list (xs : List PyVal) : PyVal
  | dict (fs : List (String × PyVal)) : PyVal

/-- Python truthiness for the values our pipeline meets (`if not data`). -/
def py_truthy : PyVal → Bool
  | PyVal.none => false
  | PyVal.str s => s != ""
  | PyVal.int n => n != 0
  | PyVal.bool b => b
  | PyVal.list xs => !xs.isEmpty
  | PyVal.dict fs => !fs.isEmpty

/-- First binding of `key` in an association list (Python dict lookup). -/
def assoc_find (fs : List (String × PyVal)) (key : String) : Option PyVal :=
  match fs with
  | [] => Option.none
  | (k, v) :: rest => if k = key then Option.some v else assoc_find rest key

/-- Python `container.get(key, default)`: only dicts have `.get`;
any other receiver raises `AttributeError`. -/
def py_get (v : PyVal) (key : String) (default : PyVal) : Except PyErr PyVal :=
  match v with
  | PyVal.dict fs =>
    match assoc_find fs key with
    | Option.some w => Except.ok w
    | Option.none => Except.ok default
  | _ => Except.error "AttributeError"

/-- Python `container[key]` with a string key: `KeyError` when absent,
`TypeError` when the receiver is not a dict. -/
def py_subscript (v : PyVal) (key : String) : Except PyErr PyVal :=
  match v with
  | PyVal.dict fs =>
    match assoc_find fs key with
    | Option.some w => Except.ok w
    | Option.none => Except.error "KeyError"
  | _ => Except.error "TypeError"

/-- Python `container[i]` with a nonnegative integer index:
`IndexError` past the end, `TypeError` on a non-sequence. -/
def py_item (v : PyVal) (i : Nat) : Except PyErr PyVal :=
  match v with
  | PyVal.list xs =>
    match xs.get? i with
    | Option.some c => Except.ok c
    | Option.none => Except.error "IndexError"
  | _ => Except.error "TypeError"

/-- Iterating a value as a Python list (`for x in v`, comprehensions). -/
def py_iter (v : PyVal) : Except PyErr (List PyVal) :=
  match v with
  | PyVal.list xs => Except.ok xs
  | _ => Except.error "TypeError"

/-- Python `==` between an arbitrary value and a string literal. -/
def py_eq_str (v : PyVal) (t : String) : Bool :=
  match v with
  | PyVal.str s => s = t
  | _ => false

/-- Python `"key" in v` for a dict receiver (membership among keys);
other receivers do not occur on the paths we model. -/
def py_has_key (v : PyVal) (key : String) : Except PyErr Bool :=
  match v with
  | PyVal.dict fs => Except.ok ((assoc_find fs key).isSome)
  | PyVal.list xs => Except.ok (xs.any (fun x => py_eq_str x key))
  | _ => Except.error "TypeError"

/-- An ASCII single quote, kept out of source literals. -/
def squote : String := String.singleton (Char.ofNat 39)

/-- Comma-space separated concatenation, as Python renders containers. -/
def comma_sep (xs : List String) : String := String.intercalate ", " xs

/-- Python `repr()` for the values we model (good enough for `str()` of
containers inside f-strings). -/
def pyRepr : PyVal → String
  | PyVal.none => "None"
  | PyVal.str s => squote ++ s ++ squote
  | PyVal.int n => toString n
  | PyVal.bool b => if b then "True" else "False"
  | PyVal.list xs => "[" ++ comma_sep (xs.attach.map (fun x => pyRepr x.1)) ++ "]"
  | PyVal.dict fs =>
    "\x7b" ++
      comma_sep (fs.attach.map (fun kv => squote ++ kv.1.1 ++ squote ++ ": " ++ pyRepr kv.1.2)) ++
      "\x7d"
decreasing_by
  · simp_wf
    have := List.sizeOf_lt_of_mem x.2
    omega
  · simp_wf
    have h1 := List.sizeOf_lt_of_mem kv.2
    rcases kv with ⟨⟨k, v⟩, hm⟩
    simp_all
    omega

/-- Python `str()` / f-string rendering of a value. -/
def pyStr (v : PyVal) : String :=
  match v with
  | PyVal.str s => s
  | _ => pyRepr v

/-- `format_item` from the source: bolded key/value line,
substituting "N/A" when the value is `None`. -/
def format_item (key : String) (value : PyVal) : String :=
  let value := match value with
    | PyVal.none => PyVal.str "N/A"
    | _ => value
  "*" ++ key ++ "*: " ++ pyStr value

/-- The fields of a Python `datetime` that the pipeline touches
(timezone offset is parsed for validity but not stored: `strftime`
formats the naive fields). -/
structure PyDateTime where
  year : Nat
  month : Nat
  day : Nat
  hour : Nat
  minute : Nat
  second : Nat
  microsecond : Nat

/-- Read exactly `n` decimal digits off the front of a char list. -/
def take_digits (n : Nat) (cs : List Char) : Option (Nat × List Char) :=
  match n with
  | 0 => Option.some (0, cs)
  | Nat.succ m =>
    match cs with
    | [] => Option.none
    | c :: rest =>
      if c.isDigit then
        match take_digits m rest with
        | Option.some (v, r) => Option.some ((c.toNat - 48) * 10 ^ m + v, r)
        | Option.none => Option.none
      else Option.none

/-- Expect a specific character next. -/
def expect_char (c : Char) (cs : List Char) : Option (List Char) :=
  match cs with
  | [] => Option.none
  | d :: rest => if d = c then Option.some rest else Option.none

/-- Validate a trailing UTC-offset suffix (`""`, `"Z"`, or `±HH:MM`). -/
def valid_tz (cs : List Char) : Bool :=
  match cs with
  | [] => true
  | c :: rest =>
    if c = 'Z' then rest.isEmpty
    else
      (c = '+' || c = '-') &&
        match take_digits 2 rest with
        | Option.some (h, ':' :: r3) =>
          (match take_digits 2 r3 with
           | Option.some (m, r4) => h ≤ 23 && m ≤ 59 && r4.isEmpty
           | Option.none => false)
        | _ => false

/-- An optional fractional-second suffix: `.` followed by 1 to 6 digits,
scaled to microseconds. Returns the value and the remaining input. -/
def parse_frac (cs : List Char) : Option (Nat × List Char) :=
  match cs with
  | '.' :: rest =>
    let ds := rest.takeWhile Char.isDigit
    if 1 ≤ ds.length ∧ ds.length ≤ 6 then
      Option.some ((ds.foldl (fun a c => a * 10 + (c.toNat - 48)) 0) * 10 ^ (6 - ds.length),
        rest.drop ds.length)
    else Option.none
  | _ => Option.some (0, cs)

/-- Model of `datetime.fromisoformat` on the grammar the alerts use:
`YYYY-MM-DD[THH:MM[:SS[.ffffff]][Z|±HH:MM]]`. `Option.none` models the
`ValueError` Python raises on malformed input. -/
def fromisoformat (s : String) : Option PyDateTime := do
  let (y, r1) ← take_digits 4 s.data
  let r2 ← expect_char '-' r1
  let (mo, r3) ← take_digits 2 r2
  let r4 ← expect_char '-' r3
  let (d, r5) ← take_digits 2 r4
  if 1 ≤ mo ∧ mo ≤ 12 ∧ 1 ≤ d ∧ d ≤ 31 then
    match r5 with
    | [] => Option.some ⟨y, mo, d, 0, 0, 0, 0⟩
    | c :: r6 =>
      if c = 'T' ∨ c = ' ' then do
        let (h, r7) ← take_digits 2 r6
        let r8 ← expect_char ':' r7
        let (mi, r9) ← take_digits 2 r8
        if h ≤ 23 ∧ mi ≤ 59 then
          match r9 with
          | ':' :: r10 => do
            let (se, r11) ← take_digits 2 r10
            let (us, r12) ← parse_frac r11
            if se ≤ 59 ∧ valid_tz r12 then Option.some ⟨y, mo, d, h, mi, se, us⟩
            else Option.none
          | rest =>
            if valid_tz rest then Option.some ⟨y, mo, d, h, mi, 0, 0⟩ else Option.none
        else Option.none
      else Option.none
  else Option.none

/-- Split a character list at newline characters, keeping empty pieces,
like Python `text.split("\n")`. The result is always nonempty. -/
def splitOnNL : List Char → List (List Char)
  | [] => [[]]
  | c :: cs =>
    let r := splitOnNL cs
    if c = '\n' then [] :: r
    else (c :: r.headD []) :: r.tail

/-- Join character-list lines with newline characters. -/
def joinNLc : List (List Char) → List Char
  | [] => []
  | [l] => l
  | l :: ls => l ++ '\n' :: joinNLc ls

/-- Python `"\n".join(lines)`. -/
def joinNL (ls : List String) : String := String.mk (joinNLc (ls.map String.data))

/-- Python `str.splitlines()` for newline-separated text: a trailing
final newline produces no empty last line, and `""` has no lines. -/
def pySplitlinesC (cs : List Char) : List (List Char) :=
  if cs.isEmpty then []
  else
    let ps := splitOnNL cs
    if ps.getLast? = Option.some [] then ps.dropLast else ps

/-- `str.splitlines()` on strings. -/
def pySplitlines (s : String) : List String := (pySplitlinesC s.data).map String.mk

/-- The whitespace characters of Python `str.strip()`. -/
def py_isspace (c : Char) : Bool :=
  c = ' ' || c = '\t' || c = '\n' || c = '\r' || c = '\x0b' || c = '\x0c'

/-- Python `str.strip()`: remove leading and trailing whitespace. -/
def pyStrip (s : String) : String :=
  String.mk (((s.data.dropWhile py_isspace).reverse.dropWhile py_isspace).reverse)

/-- Longest common prefix of two character lists. -/
def common_pre : List Char → List Char → List Char
  | a :: as, b :: bs => if a = b then a :: common_pre as bs else []
  | _, _ => []

/-- Whether the first character list starts the second. -/
def is_pre : List Char → List Char → Bool
  | [], _ => true
  | _ :: _, [] => false
  | a :: ps, b :: ls => a = b && is_pre ps ls

/-- Margin characters considered by `textwrap.dedent`. -/
def is_indent_char (c : Char) : Bool := c = ' ' || c = '\t'

/-- `textwrap.dedent`: whitespace-only lines are normalized to empty,
the longest common leading space/tab margin of the remaining lines is
computed, and that margin is removed from the start of every line. -/
def dedent (text : String) : String :=
  let lines := (splitOnNL text.data).map String.mk
  let lines := lines.map (fun l =>
    if l ≠ "" ∧ l.data.all is_indent_char then "" else l)
  let indents :=
    (lines.filter (fun l => l ≠ "")).map (fun l => l.data.takeWhile is_indent_char)
  let margin := match indents with
    | [] => []
    | i :: rest => rest.foldl common_pre i
  let lines := lines.map (fun l =>
    if is_pre margin l.data then String.mk (l.data.drop margin.length) else l)
  joinNL lines

/-- `format_raw_stack` from the source: dedent, strip, and when more
than 20 lines remain keep only the first 10 and last 10 around a
literal `" ... "` separator line. -/
def format_raw_stack (raw_stack : String) : String :=
  let stack := pyStrip (dedent raw_stack)
  let lines := pySplitlines stack
  if lines.length > 20 then
    let first_10_lines := joinNL (lines.take 10)
    let last_10_lines := joinNL (lines.drop (lines.length - 10))
    first_10_lines ++ "\n ... \n" ++ last_10_lines
  else stack

/-- Left-pad a numeral with zeros to width 2. -/
def pad2 (n : Nat) : String :=
  if n < 10 then "0" ++ toString n else toString n

/-- Left-pad a numeral with zeros to width 4 (`%Y`). -/
def pad4 (n : Nat) : String :=
  if n < 10 then "000" ++ toString n
  else if n < 100 then "00" ++ toString n
  else if n < 1000 then "0" ++ toString n
  else toString n

/-- `strftime("%Y-%m-%dT%H:%M:%SZ")` on the naive datetime fields. -/
def strftime_z (d : PyDateTime) : String :=
  pad4 d.year ++ "-" ++ pad2 d.month ++ "-" ++ pad2 d.day ++ "T" ++
    pad2 d.hour ++ ":" ++ pad2 d.minute ++ ":" ++ pad2 d.second ++ "Z"

/-- Skip JSON whitespace. -/
def json_ws (cs : List Char) : List Char :=
  cs.dropWhile (fun c => c = ' ' || c = '\t' || c = '\n' || c = '\r')

/-- Parse the body of a JSON string after the opening quote, handling
the common escapes; the accumulator holds the decoded text reversed. -/
def parse_jstring_aux : List Char → List Char → Option (String × List Char)
  | [], _ => Option.none
  | c :: rest, acc =>
    if c = Char.ofNat 34 then Option.some (String.mk acc.reverse, rest)
    else if c = Char.ofNat 92 then
      match rest with
      | [] => Option.none
      | e :: rest2 =>
        if e = 'n' then parse_jstring_aux rest2 ('\n' :: acc)
        else if e = 't' then parse_jstring_aux rest2 ('\t' :: acc)
        else if e = 'r' then parse_jstring_aux rest2 ('\r' :: acc)
        else if e = Char.ofNat 34 ∨ e = Char.ofNat 92 ∨ e = '/' then
          parse_jstring_aux rest2 (e :: acc)
        else Option.none
    else parse_jstring_aux rest (c :: acc)

/-- Parse a JSON integer literal (the alerts carry no floats, so a
fractional or exponent suffix is out of the modeled grammar). -/
def parse_jnumber (cs : List Char) : Option (PyVal × List Char) :=
  let p := match cs with
    | '-' :: rest => (true, rest)
    | _ => (false, cs)
  let ds := p.2.takeWhile Char.isDigit
  let rest := p.2.drop ds.length
  if ds.isEmpty then Option.none
  else
    match rest with
    | '.' :: _ => Option.none
    | 'e' :: _ => Option.none
    | 'E' :: _ => Option.none
    | _ =>
      let n : Int := Int.ofNat (ds.foldl (fun a c => a * 10 + (c.toNat - 48)) 0)
      Option.some (PyVal.int (if p.1 then -n else n), rest)

mutual

/-- One JSON value; the fuel bounds the recursion. -/
def parse_jvalue : Nat → List Char → Option (PyVal × List Char)
  | 0, _ => Option.none
  | Nat.succ f, cs =>
    let cs := json_ws cs
    match cs with
    | [] => Option.none
    | c :: rest =>
      if c = Char.ofNat 34 then
        match parse_jstring_aux rest [] with
        | Option.some (s, r) => Option.some (PyVal.str s, r)
        | Option.none => Option.none
      else if c = '[' then
        match json_ws rest with
        | ']' :: r2 => Option.some (PyVal.list [], r2)
        | r1 =>
          match parse_jelems f r1 with
          | Option.some (vs, r2) => Option.some (PyVal.list vs, r2)
          | Option.none => Option.none
      else if c = Char.ofNat 123 then
        match json_ws rest with
        | d :: r2 =>
          if d = Char.ofNat 125 then Option.some (PyVal.dict [], r2)
          else
            match parse_jmembers f (d :: r2) with
            | Option.some (ms, r3) => Option.some (PyVal.dict ms, r3)
            | Option.none => Option.none
        | [] => Option.none
      else if is_pre ['t', 'r', 'u', 'e'] cs then Option.some (PyVal.bool true, cs.drop 4)
      else if is_pre ['f', 'a', 'l', 's', 'e'] cs then Option.some (PyVal.bool false, cs.drop 5)
      else if is_pre ['n', 'u', 'l', 'l'] cs then Option.some (PyVal.none, cs.drop 4)
      else parse_jnumber cs

/-- Comma-separated array elements up to the closing bracket. -/
def parse_jelems : Nat → List Char → Option (List PyVal × List Char)
  | 0, _ => Option.none
  | Nat.succ f, cs =>
    match parse_jvalue f cs with
    | Option.none => Option.none
    | Option.some (v, r) =>
      match json_ws r with
      | ',' :: r2 =>
        (match parse_jelems f r2 with
         | Option.some (vs, r3) => Option.some (v :: vs, r3)
         | Option.none => Option.none)
      | ']' :: r2 => Option.some ([v], r2)
      | _ => Option.none

/-- Comma-separated object members up to the closing brace. -/
def parse_jmembers : Nat → List Char → Option (List (String × PyVal) × List Char)
  | 0, _ => Option.none
  | Nat.succ f, cs =>
    match json_ws cs with
    | c :: rest =>
      if c = Char.ofNat 34 then
        match parse_jstring_aux rest [] with
        | Option.some (k, r1) =>
          (match json_ws r1 with
           | ':' :: r2 =>
             (match parse_jvalue f r2 with
              | Option.some (v, r3) =>
                (match json_ws r3 with
                 | ',' :: r4 =>
                   (match parse_jmembers f r4 with
                    | Option.some (ms, r5) => Option.some ((k, v) :: ms, r5)
                    | Option.none => Option.none)
                 | d :: r4 =>
                   if d = Char.ofNat 125 then Option.some ([(k, v)], r4) else Option.none
                 | [] => Option.none)
              | Option.none => Option.none)
           | _ => Option.none)
        | Option.none => Option.none
      else Option.none
    | [] => Option.none

end

/-- Model of `json.loads`; `Except.error` is `json.JSONDecodeError`. -/
def json_loads (s : String) : Except PyErr PyVal :=
  match parse_jvalue (s.length + 1) s.data with
  | Option.some (v, rest) =>
    if (json_ws rest).isEmpty then Except.ok v else Except.error "JSONDecodeError"
  | Option.none => Except.error "JSONDecodeError"

/-- Python `list.index(v)`: index of the first equal element,
`ValueError` when absent. The probe is always a string here. -/
def list_index (xs : List PyVal) (v : String) : Except PyErr Nat :=
  match xs with
  | [] => Except.error "ValueError"
  | x :: rest =>
    if py_eq_str x v then Except.ok 0
    else (list_index rest v).map (· + 1)

/-- One key of Python `dict.update`: replace in place or append. -/
def set_key (d : List (String × PyVal)) (k : String) (v : PyVal) : List (String × PyVal) :=
  match d with
  | [] => [(k, v)]
  | (k0, v0) :: rest =>
    if k0 = k then (k0, v) :: rest else (k0, v0) :: set_key rest k v

/-- Python `dict.update(entry)` for association-list dicts. -/
def dict_update (d entry : List (String × PyVal)) : List (String × PyVal) :=
  entry.foldl (fun acc kv => set_key acc kv.1 kv.2) d

/-- The comprehension `[col["name"] for col in json_columns]`. -/
def map_col_names (cols : List PyVal) : Except PyErr (List PyVal) :=
  match cols with
  | [] => Except.ok []
  | col :: rest => do
    let n ← py_subscript col "name"
    let ns ← map_col_names rest
    Except.ok (n :: ns)

/-- The row loop of `select_search_results`: for each row build the
two-field entry and `dict.update` it into the accumulator. -/
def select_rows_loop (idx_om idx_dt : Nat) (rows : List PyVal)
    (acc : List (String × PyVal)) : Except PyErr (List (String × PyVal)) :=
  match rows with
  | [] => Except.ok acc
  | row :: rest => do
    let vo ← py_item row idx_om
    let vd ← py_item row idx_dt
    select_rows_loop idx_om idx_dt rest
      (dict_update acc [("outerMessage", vo), ("details", vd)])

/-- `select_search_results` from the source: build a name-to-index map
for the two selected columns and fold each row's entry into a dict.
The `Except` return models the exceptions the Python body can raise:
`KeyError`/`TypeError` on a malformed table, `ValueError` from
`columns.index` on a missing column, `IndexError` on a short row. -/
def select_search_results (data : PyVal) : Except PyErr PyVal := do
  let json_columns ← py_subscript data "columns"
  let cols ← py_iter json_columns
  let columns ← map_col_names cols
  let rowsv ← py_subscript data "rows"
  let rows ← py_iter rowsv
  let idx_om ← list_index columns "outerMessage"
  let idx_dt ← list_index columns "details"
  let details ← select_rows_loop idx_om idx_dt rows []
  Except.ok (PyVal.dict details)

/-- `format_search_results` from the source: empty selection renders the
no-details line; otherwise a Message line, then the `details` value is
JSON-parsed — a list renders its first element's `rawStack` (truncated)
as a fenced code block, anything else (or a parse failure) renders as a
plain key/value line. Uncaught Python exceptions surface as errors:
`IndexError` on an empty parsed list, `TypeError` when `json.loads`
gets a non-string. -/
def format_search_results (data : PyVal) : Except PyErr String :=
  if !py_truthy data then Except.ok "_No additional details found._\n"
  else do
    let message ← py_get data "outerMessage" (PyVal.str "")
    let line1 := format_item "Message" message
    let detailsv ← py_get data "details" (PyVal.str "")
    match detailsv with
    | PyVal.str s =>
      (match json_loads s with
       | Except.ok parsed =>
         (match parsed with
          | PyVal.list items =>
            (match items with
             | [] => Except.error "IndexError"
             | details_item :: _ => do
               let rawstackv ← py_get details_item "rawStack" (PyVal.str "")
               match rawstackv with
               | PyVal.str raw =>
                 let stack := format_raw_stack raw
                 Except.ok (line1 ++ "\n" ++ "*Details*:\n```\n" ++ stack ++ "\n```" ++ "\n")
               | _ => Except.error "TypeError")
          | _ => Except.ok (line1 ++ "\n" ++ format_item "Details" parsed ++ "\n"))
       | Except.error _ => Except.ok (line1 ++ "\n" ++ format_item "Details" detailsv ++ "\n"))
    | _ => Except.error "TypeError"

/-- `format_alert_date` from the source: `"N/A"` for `None`/empty input,
otherwise parse, zero the microseconds, and format; a parse failure
(`ValueError`) is caught and also yields `"N/A"`. -/
def format_alert_date (date_str : Option String) : String :=
  match date_str with
  | Option.none => "N/A"
  | Option.some s =>
    if s = "" then "N/A"
    else
      match fromisoformat s with
      | Option.some date_obj => strftime_z { date_obj with microsecond := 0 }
      | Option.none => "N/A"

/-- Outcome of the outbound search-results GET, abstracting the
network: `failure` is any `requests.exceptions.RequestException`
(transport error or `raise_for_status` on a non-2xx response);
`success body` is a 2xx response whose JSON decodes to `body`. -/
inductive FetchOutcome where
  | success (body : PyVal) : FetchOutcome
  | failure : FetchOutcome

/-- Outcome of the outbound Slack webhook POST. -/
inductive SlackOutcome where
  | success : SlackOutcome
  | failure (e : String) : SlackOutcome

/-- The outbound HTTP calls the handler can make, in order. -/
inductive OutboundCall where
  | searchFetch (api_link : PyVal) : OutboundCall
  | slackPost (message : String) : OutboundCall

/-- An `azure.functions.HttpResponse`. -/
structure HttpResponse where
  body : String
  status_code : Nat

/-- `fetch_search_results` from the source, network abstracted by
`outcome`: any request failure returns the sentinel error dict; success
returns the first `tables` entry, or an empty dict when the `tables`
list is empty (`KeyError`/`TypeError` from `data["tables"]` on a
malformed body are uncaught, as in the source). -/
def fetch_search_results (outcome : FetchOutcome) : Except PyErr PyVal :=
  match outcome with
  | FetchOutcome.failure =>
    Except.ok (PyVal.dict [("error", PyVal.str "Failed to fetch log details.")])
  | FetchOutcome.success body => do
    let tables ← py_subscript body "tables"
    if py_truthy tables then py_item tables 0 else Except.ok (PyVal.dict [])

/-- The api-link derivation at the head of `get_details_string`:
`data.get("alertContext", {}).get("condition", {}).get("allOf", [{}])[0]
.get("linkToSearchResultsAPI", "#")`. -/
def get_api_link (data : PyVal) : Except PyErr PyVal := do
  let alert_context ← py_get data "alertContext" (PyVal.dict [])
  let condition ← py_get alert_context "condition" (PyVal.dict [])
  let all_of ← py_get condition "allOf" (PyVal.list [PyVal.dict []])
  let first ← py_item all_of 0
  py_get first "linkToSearchResultsAPI" (PyVal.str "#")

/-- `get_details_string` from the source: derive the search-results API
link, fetch, select unless the fetch returned the error sentinel, and
format. Also reports the outbound call made. -/
def get_details_string (data : PyVal) (fetch : FetchOutcome) :
    Except PyErr (String × List OutboundCall) := do
  let api_link ← get_api_link data
  let search_results ← fetch_search_results fetch
  let has_err ← py_has_key search_results "error"
  let selected ←
    if has_err then Except.ok (PyVal.dict []) else select_search_results search_results
  let details_str ← format_search_results selected
  Except.ok (details_str, [OutboundCall.searchFetch api_link])

/-- `validate_function_key` from the source: falsy key (absent or
empty) gives 401; a key different from the configured secret gives 403;
otherwise pass. -/
def validate_function_key (key : Option String) (function_key : Option String) :
    Option HttpResponse :=
  if key = Option.none ∨ key = Option.some "" then
    Option.some ⟨"Missing code authentication.", 401⟩
  else if key ≠ function_key then
    Option.some ⟨"Unauthorized: invalid code.", 403⟩
  else Option.none

/-- The configured production alert rule name. -/
def PRODUCTION_ALERT_RULE : String := "qr-error"

/-- `build_slack_message` from the source. `firedDateTime` must be a
string or `None`/absent — anything else is the uncaught `TypeError`
that `datetime.fromisoformat` would raise. -/
def build_slack_message (data : PyVal) (details : String) : Except PyErr String := do
  let essentials ← py_get data "essentials" (PyVal.dict [])
  let alert_id ← py_get essentials "alertId" (PyVal.str "N/A")
  let alert_rule ← py_get essentials "alertRule" (PyVal.str "N/A")
  let emoji_prefix := if py_eq_str alert_rule PRODUCTION_ALERT_RULE then "🚨 " else ""
  let severity ← py_get essentials "severity" (PyVal.str "N/A")
  let fdt ← py_get essentials "firedDateTime" PyVal.none
  let fired_date_time ←
    match fdt with
    | PyVal.none => Except.ok (format_alert_date Option.none)
    | PyVal.str s => Except.ok (format_alert_date (Option.some s))
    | _ => Except.error "TypeError"
  let investigation_link ← py_get essentials "investigationLink" (PyVal.str "#")
  let alert_id_str := format_item "Alert ID" alert_id
  let severity_str := format_item "Severity" severity
  let date_str := format_item "Date" (PyVal.str fired_date_time)
  Except.ok
    ( emoji_prefix ++ "*Azure Alert Fired: " ++ pyStr alert_rule ++ "*\n\n" ++
      severity_str ++ "\n" ++ date_str ++ "\n" ++ alert_id_str ++ "\n\n" ++
      "---------------------------------------------------\n" ++
      details ++
      "<" ++ pyStr investigation_link ++ "|Click here to investigate in Azure Portal>")

/-- `send_to_slack` from the source, POST outcome abstracted; the
response is paired with the outbound call it performs. -/
def send_to_slack (message : String) (slack : SlackOutcome) :
    HttpResponse × OutboundCall :=
  match slack with
  | SlackOutcome.success =>
    (⟨"Alert successfully forwarded to Slack.", 200⟩, OutboundCall.slackPost message)
  | SlackOutcome.failure e =>
    (⟨"Error sending to Slack: " ++ e, 500⟩, OutboundCall.slackPost message)

/-- The `alert_to_slack` handler: validate the `code` query parameter,
parse the body, build the details block and the message, send to Slack.
Returns the HTTP response together with the ordered outbound calls
made, or the uncaught Python exception. `body` is the outcome of
`req.get_json()`. -/
def alert_to_slack (function_key : Option String) (code : Option String)
    (body : Except Unit PyVal) (fetch : FetchOutcome) (slack : SlackOutcome) :
    Except PyErr (HttpResponse × List OutboundCall) :=
  match validate_function_key code function_key with
  | Option.some auth_response => Except.ok (auth_response, [])
  | Option.none =>
    match body with
    | Except.error _ => Except.ok (⟨"Request body is not valid JSON.", 400⟩, [])
    | Except.ok alert_payload => do
      let data ← py_get alert_payload "data" (PyVal.dict [])
      let r ← get_details_string data fetch
      let message ← build_slack_message data r.1
      let slack_response := send_to_slack message slack
      Except.ok (slack_response.1, r.2 ++ [slack_response.2])

/-- An essentials object assembled from optional field values, used to
quantify over payloads missing any subset of the essentials fields. -/
def mkEssentials (aid rule sev fdt link : Option String) : PyVal :=
  PyVal.dict
    ((aid.map (fun v => ("alertId", PyVal.str v))).toList ++
      (rule.map (fun v => ("alertRule", PyVal.str v))).toList ++
      (sev.map (fun v => ("severity", PyVal.str v))).toList ++
      (fdt.map (fun v => ("firedDateTime", PyVal.str v))).toList ++
      (link.map (fun v => ("investigationLink", PyVal.str v))).toList)

/-- The message `build_slack_message` produces for a payload whose
essentials carry the optional field values of `mkEssentials`: absent
`alertId`/`alertRule`/`severity` render as `"N/A"`, the date field goes
through `format_alert_date`, and an absent `investigationLink` falls
back to `"#"`. -/
def msgOf (aid rule sev fdt link : Option String) (det : String) : String :=
  (if py_eq_str (PyVal.str (rule.getD "N/A")) PRODUCTION_ALERT_RULE then "🚨 " else "") ++
    "*Azure Alert Fired: " ++ rule.getD "N/A" ++ "*\n\n" ++
    ("*" ++ "Severity" ++ "*: " ++ sev.getD "N/A") ++ "\n" ++
    ("*" ++ "Date" ++ "*: " ++ format_alert_date fdt) ++ "\n" ++
    ("*" ++ "Alert ID" ++ "*: " ++ aid.getD "N/A") ++ "\n\n" ++
    "---------------------------------------------------\n" ++
    det ++
    "<" ++ link.getD "#" ++ "|Click here to investigate in Azure Portal>"

/-- `pat` occurs as a contiguous substring of `s`. -/
def strHas (pat s : String) : Prop :=
  ∃ p q : List Char, s.data = p ++ pat.data ++ q

/-- A search-result table with the given column-name values and rows,
in the shape the search-results API returns. -/
def mkTable (names rows : List PyVal) : PyVal :=
  PyVal.dict
    [("columns", PyVal.list (names.map (fun n => PyVal.dict [("name", n)]))),
      ("rows", PyVal.list rows)]

/-! ## Supporting lemmas -/

theorem strHas_left (a : String) {pat b : String} (h : strHas pat b) :
    strHas pat (a ++ b) := by
  obtain ⟨p, q, hb⟩ := h
  refine ⟨a.data ++ p, q, ?_⟩
  show a.data ++ b.data = _
  rw [hb]
  simp

theorem strHas_right {pat a : String} (h : strHas pat a) (b : String) :
    strHas pat (a ++ b) := by
  obtain ⟨p, q, ha⟩ := h
  refine ⟨p, q ++ b.data, ?_⟩
  show a.data ++ b.data = _
  rw [ha]
  simp

theorem strHas_self (pat : String) : strHas pat pat := ⟨[], [], by simp⟩

theorem strHas_mem {pat s : String} {c : Char} (h : strHas pat s) (hc : c ∈ pat.data) :
    c ∈ s.data := by
  obtain ⟨p, q, hs⟩ := h
  rw [hs]
  simp [hc]

/-! ## Claims -/

/-- C8: the date formatter never raises: on a parseable ISO-8601 string
it truncates sub-second precision and renders `YYYY-MM-DDTHH:MM:SSZ`
(in particular the spec's example maps as stated), and on absence
(`None` or empty) or parse failure it returns `"N/A"`. -/
theorem C8_format_alert_date_total :
    (∀ s d, fromisoformat s = Option.some d →
      format_alert_date (Option.some s) = strftime_z { d with microsecond := 0 }) ∧
    format_alert_date (Option.some "2024-01-01T10:00:00.123456+00:00")
      = "2024-01-01T10:00:00Z" ∧
    format_alert_date Option.none = "N/A" ∧
    format_alert_date (Option.some "not-a-date") = "N/A" ∧
    format_alert_date (Option.some "") = "N/A" := by
  refine ⟨?_, by decide, rfl, by decide, rfl⟩
  intro s d h
  by_cases hs : s = ""
  · subst hs
    have hnone : fromisoformat "" = Option.none := rfl
    rw [hnone] at h
    exact Option.noConfusion h
  · simp [format_alert_date, hs, h]

/-- Witness for C8 at a concrete parseable input. -/
theorem C8_witness :
    fromisoformat "2025-03-04T05:06:07.5+00:00"
      = Option.some ⟨2025, 3, 4, 5, 6, 7, 500000⟩ ∧
    format_alert_date (Option.some "2025-03-04T05:06:07.5+00:00")
      = strftime_z ⟨2025, 3, 4, 5, 6, 7, 0⟩ :=
  ⟨rfl, C8_format_alert_date_total.1 "2025-03-04T05:06:07.5+00:00"
    ⟨2025, 3, 4, 5, 6, 7, 500000⟩ rfl⟩

/-- C9: a missing `code` parameter is answered 401 and a nonempty
mismatched one 403, in both cases before any outbound HTTP call is
made (the returned call trace is empty). -/
theorem C9_auth_gate (fkey code : Option String) (body : Except Unit PyVal)
    (fetch : FetchOutcome) (slack : SlackOutcome) :
    (code = Option.none →
      alert_to_slack fkey code body fetch slack
        = Except.ok (⟨"Missing code authentication.", 401⟩, [])) ∧
    (∀ s, code = Option.some s → s ≠ "" → Option.some s ≠ fkey →
      alert_to_slack fkey code body fetch slack
        = Except.ok (⟨"Unauthorized: invalid code.", 403⟩, [])) := by
  constructor
  · intro h
    subst h
    rfl
  · intro s h hs hne
    subst h
    simp [alert_to_slack, validate_function_key, hs, hne]

/-- Witness for C9: both rejection branches at concrete requests. -/
theorem C9_witness :
    alert_to_slack (Option.some "sec") Option.none (Except.ok (PyVal.dict []))
        FetchOutcome.failure SlackOutcome.success
      = Except.ok (⟨"Missing code authentication.", 401⟩, []) ∧
    alert_to_slack (Option.some "sec") (Option.some "bad") (Except.ok (PyVal.dict []))
        FetchOutcome.failure SlackOutcome.success
      = Except.ok (⟨"Unauthorized: invalid code.", 403⟩, []) :=
  ⟨(C9_auth_gate (Option.some "sec") Option.none (Except.ok (PyVal.dict []))
      FetchOutcome.failure SlackOutcome.success).1 rfl,
   (C9_auth_gate (Option.some "sec") (Option.some "bad") (Except.ok (PyVal.dict []))
      FetchOutcome.failure SlackOutcome.success).2 "bad" rfl (by decide) (by decide)⟩

/-- C10: with `AZURE_FUNCTION_KEY` unset, validation always fails
before any outbound call: a missing or empty code yields 401 and any
nonempty code yields 403 (a present string never equals the unset
sentinel), so no request reaches parsing, fetching, or delivery. -/
theorem C10_unset_secret_locks_out (code : Option String) (body : Except Unit PyVal)
    (fetch : FetchOutcome) (slack : SlackOutcome) :
    (∃ r, alert_to_slack Option.none code body fetch slack = Except.ok (r, []) ∧
      (r.status_code = 401 ∨ r.status_code = 403)) ∧
    ((code = Option.none ∨ code = Option.some "") →
      alert_to_slack Option.none code body fetch slack
        = Except.ok (⟨"Missing code authentication.", 401⟩, [])) ∧
    (∀ s, code = Option.some s → s ≠ "" →
      alert_to_slack Option.none code body fetch slack
        = Except.ok (⟨"Unauthorized: invalid code.", 403⟩, [])) := by
  rcases code with _ | s
  · refine ⟨⟨⟨"Missing code authentication.", 401⟩, rfl, Or.inl rfl⟩, fun _ => rfl, ?_⟩
    intro s h
    exact Option.noConfusion h
  · by_cases hs : s = ""
    · subst hs
      refine ⟨⟨⟨"Missing code authentication.", 401⟩, rfl, Or.inl rfl⟩, fun _ => rfl, ?_⟩
      intro s' h hne
      cases h
      exact absurd rfl hne
    · have h403 : alert_to_slack Option.none (Option.some s) body fetch slack
          = Except.ok (⟨"Unauthorized: invalid code.", 403⟩, []) := by
        simp [alert_to_slack, validate_function_key, hs]
      refine ⟨⟨⟨"Unauthorized: invalid code.", 403⟩, h403, Or.inr rfl⟩, ?_, ?_⟩
      · intro h
        rcases h with h | h
        · exact Option.noConfusion h
        · cases h
          exact absurd rfl hs
      · intro s' h _
        cases h
        exact h403

/-- Witness for C10: concrete requests with the secret unset. -/
theorem C10_witness :
    alert_to_slack Option.none Option.none (Except.ok (PyVal.dict []))
        FetchOutcome.failure SlackOutcome.success
      = Except.ok (⟨"Missing code authentication.", 401⟩, []) ∧
    alert_to_slack Option.none (Option.some "anything") (Except.ok (PyVal.dict []))
        FetchOutcome.failure SlackOutcome.success
      = Except.ok (⟨"Unauthorized: invalid code.", 403⟩, []) :=
  ⟨(C10_unset_secret_locks_out Option.none (Except.ok (PyVal.dict []))
      FetchOutcome.failure SlackOutcome.success).2.1 (Or.inl rfl),
   (C10_unset_secret_locks_out (Option.some "anything") (Except.ok (PyVal.dict []))
      FetchOutcome.failure SlackOutcome.success).2.2 "anything" rfl (by decide)⟩

/-- C3 counterexample: an alert payload whose `alertContext.condition.
allOf` is present but an empty list makes the link derivation raise
`IndexError` (`[][0]`), so the derivation is not raise-free for every
missing-or-malformed nesting, contrary to the claim; the whole details
stage aborts with it. -/
theorem C3_empty_allOf_raises :
    get_api_link (PyVal.dict [("alertContext", PyVal.dict
        [("condition", PyVal.dict [("allOf", PyVal.list [])])])])
      = Except.error "IndexError" ∧
    get_details_string (PyVal.dict [("alertContext", PyVal.dict
        [("condition", PyVal.dict [("allOf", PyVal.list [])])])]) FetchOutcome.failure
      = Except.error "IndexError" :=
  ⟨rfl, rfl⟩

/-- C3 amended: the api-link derivation never raises when levels of the
nesting are absent — each missing level falls back so that the link is
the sentinel `"#"`, and a present link value is returned — provided the
present levels are well-shaped (dicts, and `allOf` a nonempty list with
a dict head); a present-but-empty `allOf` list, however, raises. -/
theorem C3_link_fallback :
    (∀ fs, assoc_find fs "alertContext" = Option.none →
      get_api_link (PyVal.dict fs) = Except.ok (PyVal.str "#")) ∧
    (∀ fs gs, assoc_find fs "alertContext" = Option.some (PyVal.dict gs) →
      assoc_find gs "condition" = Option.none →
      get_api_link (PyVal.dict fs) = Except.ok (PyVal.str "#")) ∧
    (∀ fs gs hs, assoc_find fs "alertContext" = Option.some (PyVal.dict gs) →
      assoc_find gs "condition" = Option.some (PyVal.dict hs) →
      assoc_find hs "allOf" = Option.none →
      get_api_link (PyVal.dict fs) = Except.ok (PyVal.str "#")) ∧
    (∀ fs gs hs es tl, assoc_find fs "alertContext" = Option.some (PyVal.dict gs) →
      assoc_find gs "condition" = Option.some (PyVal.dict hs) →
      assoc_find hs "allOf" = Option.some (PyVal.list (PyVal.dict es :: tl)) →
      assoc_find es "linkToSearchResultsAPI" = Option.none →
      get_api_link (PyVal.dict fs) = Except.ok (PyVal.str "#")) ∧
    (∀ fs gs hs es tl v, assoc_find fs "alertContext" = Option.some (PyVal.dict gs) →
      assoc_find gs "condition" = Option.some (PyVal.dict hs) →
      assoc_find hs "allOf" = Option.some (PyVal.list (PyVal.dict es :: tl)) →
      assoc_find es "linkToSearchResultsAPI" = Option.some v →
      get_api_link (PyVal.dict fs) = Except.ok v) := by
  refine ⟨?_, ?_, ?_, ?_, ?_⟩
  · intro fs h
    simp [get_api_link, py_get, py_item, assoc_find, bind, Except.bind, h]
  · intro fs gs h1 h2
    simp [get_api_link, py_get, py_item, assoc_find, bind, Except.bind, h1, h2]
  · intro fs gs hs h1 h2 h3
    simp [get_api_link, py_get, py_item, assoc_find, bind, Except.bind, h1, h2, h3]
  · intro fs gs hs es tl h1 h2 h3 h4
    simp [get_api_link, py_get, py_item, assoc_find, bind, Except.bind, h1, h2, h3, h4]
  · intro fs gs hs es tl v h1 h2 h3 h4
    simp [get_api_link, py_get, py_item, assoc_find, bind, Except.bind, h1, h2, h3, h4]

/-- Witness for C3 at concrete payloads: a fully absent structure gives
the sentinel, and a present link is returned. -/
theorem C3_witness :
    get_api_link (PyVal.dict []) = Except.ok (PyVal.str "#") ∧
    get_api_link (PyVal.dict [("alertContext", PyVal.dict [("condition", PyVal.dict
        [("allOf", PyVal.list [PyVal.dict
          [("linkToSearchResultsAPI", PyVal.str "https://api/results")]])])])])
      = Except.ok (PyVal.str "https://api/results") :=
  ⟨C3_link_fallback.1 [] rfl,
   C3_link_fallback.2.2.2.2
     [("alertContext", PyVal.dict [("condition", PyVal.dict
       [("allOf", PyVal.list [PyVal.dict
         [("linkToSearchResultsAPI", PyVal.str "https://api/results")]])])])]
     [("condition", PyVal.dict [("allOf", PyVal.list [PyVal.dict
       [("linkToSearchResultsAPI", PyVal.str "https://api/results")]])])]
     [("allOf", PyVal.list [PyVal.dict
       [("linkToSearchResultsAPI", PyVal.str "https://api/results")]])]
     [("linkToSearchResultsAPI", PyVal.str "https://api/results")] []
     (PyVal.str "https://api/results") rfl rfl rfl rfl⟩

theorem map_col_names_mk (names : List PyVal) :
    map_col_names (names.map (fun n => PyVal.dict [("name", n)])) = Except.ok names := by
  induction names with
  | nil => rfl
  | cons n rest ih =>
    simp [map_col_names, py_subscript, assoc_find, bind, Except.bind, ih]

theorem list_index_absent {xs : List PyVal} {v : String}
    (h : ∀ x ∈ xs, py_eq_str x v = false) :
    list_index xs v = Except.error "ValueError" := by
  induction xs with
  | nil => rfl
  | cons x rest ih =>
    have hx : py_eq_str x v = false := h x (by simp)
    have hr := ih (fun y hy => h y (by simp [hy]))
    simp [list_index, hx, hr, Except.map]

theorem list_index_split (xs : List PyVal) (v : String) :
    list_index xs v = Except.error "ValueError" ∨ ∃ i, list_index xs v = Except.ok i := by
  induction xs with
  | nil => exact Or.inl rfl
  | cons x rest ih =>
    by_cases hx : py_eq_str x v = true
    · exact Or.inr ⟨0, by simp [list_index, hx]⟩
    · rcases ih with h | ⟨i, h⟩
      · exact Or.inl (by simp [list_index, hx, h, Except.map])
      · exact Or.inr ⟨i + 1, by simp [list_index, hx, h, Except.map]⟩

/-- C2 counterexample: a table whose column list lacks the wanted
column names makes the selector raise `ValueError` (from
`columns.index`), not return a mapping with the field absent. -/
theorem C2_missing_column_raises :
    select_search_results (PyVal.dict
        [("columns", PyVal.list [PyVal.dict [("name", PyVal.str "problemId")]]),
          ("rows", PyVal.list [PyVal.list [PyVal.str "p1"]])])
      = Except.error "ValueError" := rfl

/-- C2 amended: when a wanted column name (`outerMessage` or `details`)
is absent from the table's column list, the selection fails for the
table as a whole with `ValueError`; the field is not recoverably
omitted. -/
theorem C2_missing_column_fails_table (names rows : List PyVal)
    (h : (∀ x ∈ names, py_eq_str x "outerMessage" = false) ∨
      (∀ x ∈ names, py_eq_str x "details" = false)) :
    select_search_results (mkTable names rows) = Except.error "ValueError" := by
  rcases h with h | h
  · simp [select_search_results, mkTable, py_subscript, assoc_find, py_iter,
      bind, Except.bind, map_col_names_mk, list_index_absent h]
  · rcases list_index_split names "outerMessage" with h1 | ⟨i, h1⟩ <;>
      simp [select_search_results, mkTable, py_subscript, assoc_find, py_iter,
        bind, Except.bind, map_col_names_mk, h1, list_index_absent h]

/-- Witness for C2 at a concrete table lacking both wanted columns. -/
theorem C2_witness :
    select_search_results (mkTable [PyVal.str "problemId"] [PyVal.list [PyVal.str "x"]])
      = Except.error "ValueError" :=
  C2_missing_column_fails_table [PyVal.str "problemId"] [PyVal.list [PyVal.str "x"]]
    (Or.inl (by decide))

theorem dict_update_twokey (x y vo vd : PyVal) :
    dict_update [("outerMessage", x), ("details", y)]
        [("outerMessage", vo), ("details", vd)]
      = [("outerMessage", vo), ("details", vd)] := by
  simp [dict_update, set_key]

theorem select_rows_loop_last (i j : Nat) (rows : List (List PyVal)) :
    ∀ acc : List (String × PyVal),
      (∀ vo vd, dict_update acc [("outerMessage", vo), ("details", vd)]
        = [("outerMessage", vo), ("details", vd)]) →
      (∀ r ∈ rows, i < r.length ∧ j < r.length) →
      rows ≠ [] →
      ∃ last, rows.getLast? = Option.some last ∧
        select_rows_loop i j (rows.map PyVal.list) acc
          = Except.ok [("outerMessage", last.getD i PyVal.none),
              ("details", last.getD j PyVal.none)] := by
  induction rows with
  | nil => intro acc _ _ h; exact absurd rfl h
  | cons r rest ih =>
    intro acc hacc hlen _
    have hr := hlen r (by simp)
    have hvo : py_item (PyVal.list r) i = Except.ok (r.getD i PyVal.none) := by
      simp [py_item, List.get?_eq_getElem?, List.getElem?_eq_getElem hr.1,
        List.getD_eq_getElem?_getD, Option.getD]
    have hvd : py_item (PyVal.list r) j = Except.ok (r.getD j PyVal.none) := by
      simp [py_item, List.get?_eq_getElem?, List.getElem?_eq_getElem hr.2,
        List.getD_eq_getElem?_getD, Option.getD]
    rcases rest with _ | ⟨r2, rest2⟩
    · refine ⟨r, rfl, ?_⟩
      simp [select_rows_loop, bind, Except.bind, hvo, hvd, hacc]
    · obtain ⟨last, hl1, hl2⟩ :=
        ih (dict_update acc [("outerMessage", r.getD i PyVal.none),
              ("details", r.getD j PyVal.none)])
          (by rw [hacc]; intro vo vd; exact dict_update_twokey _ _ _ _)
          (fun q hq => hlen q (by simp [hq])) (by simp)
      refine ⟨last, ?_, ?_⟩
      · rw [List.getLast?_cons_cons]
        exact hl1
      · simp only [List.map_cons, select_rows_loop, bind, Except.bind, hvo, hvd]
        exact hl2

/-- C6 counterexample: on a table carrying all six spec-named columns
and two rows, the selector returns a mapping with exactly the keys
`outerMessage` and `details` — `problemId`, `client_City`, and the
rest are not extracted — and the values come from the last row, not
the first. -/
theorem C6_fixed_keys_cx :
    select_search_results (PyVal.dict
        [("columns", PyVal.list
          [PyVal.dict [("name", PyVal.str "problemId")],
            PyVal.dict [("name", PyVal.str "outerMessage")],
            PyVal.dict [("name", PyVal.str "details")],
            PyVal.dict [("name", PyVal.str "client_City")],
            PyVal.dict [("name", PyVal.str "client_StateOrProvince")],
            PyVal.dict [("name", PyVal.str "cloud_RoleInstance")]]),
          ("rows", PyVal.list
            [PyVal.list [PyVal.str "p1", PyVal.str "om1", PyVal.str "dt1",
              PyVal.str "c1", PyVal.str "s1", PyVal.str "r1"],
              PyVal.list [PyVal.str "p2", PyVal.str "om2", PyVal.str "dt2",
                PyVal.str "c2", PyVal.str "s2", PyVal.str "r2"]])])
      = Except.ok (PyVal.dict [("outerMessage", PyVal.str "om2"),
          ("details", PyVal.str "dt2")]) ∧
    assoc_find [("outerMessage", PyVal.str "om2"), ("details", PyVal.str "dt2")]
        "problemId" = Option.none ∧
    assoc_find [("outerMessage", PyVal.str "om2"), ("details", PyVal.str "dt2")]
        "client_City" = Option.none :=
  ⟨rfl, rfl, rfl⟩

/-- C6 amended: the selector extracts exactly the two keys
`outerMessage` and `details` by column name; with several rows each
row's entry overwrites the previous, so the values come from the last
row (which is the first in the expected one-row case). -/
theorem C6_select_two_columns (names : List PyVal) (rows : List (List PyVal)) (i j : Nat)
    (hi : list_index names "outerMessage" = Except.ok i)
    (hj : list_index names "details" = Except.ok j)
    (hne : rows ≠ [])
    (hlen : ∀ r ∈ rows, i < r.length ∧ j < r.length) :
    ∃ last, rows.getLast? = Option.some last ∧
      select_search_results (mkTable names (rows.map PyVal.list))
        = Except.ok (PyVal.dict [("outerMessage", last.getD i PyVal.none),
            ("details", last.getD j PyVal.none)]) := by
  obtain ⟨last, h1, h2⟩ :=
    select_rows_loop_last i j rows [] (fun vo vd => rfl) hlen hne
  refine ⟨last, h1, ?_⟩
  simp [select_search_results, mkTable, py_subscript, assoc_find, py_iter,
    bind, Except.bind, map_col_names_mk, hi, hj, h2]

/-- Witness for C6 at the spec's concrete one-row table. -/
theorem C6_witness :
    ∃ last, ([[PyVal.str "boom", PyVal.str "x"]] : List (List PyVal)).getLast?
        = Option.some last ∧
      select_search_results (mkTable [PyVal.str "outerMessage", PyVal.str "details"]
          (([[PyVal.str "boom", PyVal.str "x"]] : List (List PyVal)).map PyVal.list))
        = Except.ok (PyVal.dict [("outerMessage", last.getD 0 PyVal.none),
            ("details", last.getD 1 PyVal.none)]) :=
  C6_select_two_columns [PyVal.str "outerMessage", PyVal.str "details"]
    [[PyVal.str "boom", PyVal.str "x"]] 0 1 rfl rfl
    (List.cons_ne_nil _ _) (by simp)

theorem py_get_dict (fs : List (String × PyVal)) (k : String) (d : PyVal) :
    py_get (PyVal.dict fs) k d = Except.ok ((assoc_find fs k).getD d) := by
  cases h : assoc_find fs k <;> simp [py_get, h]

/-- C5 counterexample: a selected-fields mapping whose `details` value
is the JSON-encoded string `"[]"` parses to an empty sequence and makes
the formatter raise `IndexError` (`details[0]`), so the formatter does
not never-raise as claimed. -/
theorem C5_empty_list_raises :
    format_search_results (PyVal.dict
        [("outerMessage", PyVal.str "m"), ("details", PyVal.str "[]")])
      = Except.error "IndexError" := rfl

/-- C5 amended: for a nonempty selected-fields mapping whose `details`
value is a string: if it parses to a nonempty sequence, the first
element's `rawStack` (defaulting to empty) is passed through the stack
truncator and rendered as a fenced `*Details*:` code block; an empty
parsed sequence raises `IndexError`; a parsed mapping is rendered (as
the parsed value, not the raw string) on a plain key/value line; a
parse failure renders the raw string on a plain key/value line. -/
theorem C5_details_formatting (fs : List (String × PyVal)) (s : String)
    (hfs : fs ≠ [])
    (hdt : assoc_find fs "details" = Option.some (PyVal.str s)) :
    (∀ ds tl raw, json_loads s = Except.ok (PyVal.list (PyVal.dict ds :: tl)) →
      (assoc_find ds "rawStack").getD (PyVal.str "") = PyVal.str raw →
      format_search_results (PyVal.dict fs)
        = Except.ok (format_item "Message"
              ((assoc_find fs "outerMessage").getD (PyVal.str ""))
            ++ "\n" ++ "*Details*:\n```\n" ++ format_raw_stack raw ++ "\n```" ++ "\n")) ∧
    (json_loads s = Except.ok (PyVal.list []) →
      format_search_results (PyVal.dict fs) = Except.error "IndexError") ∧
    (∀ ms, json_loads s = Except.ok (PyVal.dict ms) →
      format_search_results (PyVal.dict fs)
        = Except.ok (format_item "Message"
              ((assoc_find fs "outerMessage").getD (PyVal.str ""))
            ++ "\n" ++ format_item "Details" (PyVal.dict ms) ++ "\n")) ∧
    (∀ e, json_loads s = Except.error e →
      format_search_results (PyVal.dict fs)
        = Except.ok (format_item "Message"
              ((assoc_find fs "outerMessage").getD (PyVal.str ""))
            ++ "\n" ++ format_item "Details" (PyVal.str s) ++ "\n")) := by
  rcases fs with _ | ⟨kv, fs'⟩
  · exact absurd rfl hfs
  · refine ⟨?_, ?_, ?_, ?_⟩
    · intro ds tl raw hjson hraw
      simp [format_search_results, py_truthy, py_get_dict, hdt, hjson, hraw,
        bind, Except.bind]
    · intro hjson
      simp [format_search_results, py_truthy, py_get_dict, hdt, hjson,
        bind, Except.bind]
    · intro ms hjson
      simp [format_search_results, py_truthy, py_get_dict, hdt, hjson,
        bind, Except.bind]
    · intro e hjson
      simp [format_search_results, py_truthy, py_get_dict, hdt, hjson,
        bind, Except.bind]

/-- Witness for C5 covering the nonempty-sequence, empty-sequence, and
parse-failure branches at concrete inputs. -/
theorem C5_witness :
    format_search_results (PyVal.dict [("outerMessage", PyVal.str "m"),
        ("details", PyVal.str "[\x7b\"rawStack\": \"a\"\x7d]")])
      = Except.ok (format_item "Message"
            ((assoc_find [("outerMessage", PyVal.str "m"),
              ("details", PyVal.str "[\x7b\"rawStack\": \"a\"\x7d]")]
              "outerMessage").getD (PyVal.str ""))
          ++ "\n" ++ "*Details*:\n```\n" ++ format_raw_stack "a" ++ "\n```" ++ "\n") ∧
    format_search_results (PyVal.dict [("outerMessage", PyVal.str "m"),
        ("details", PyVal.str "[]")]) = Except.error "IndexError" ∧
    format_search_results (PyVal.dict [("outerMessage", PyVal.str "m"),
        ("details", PyVal.str "oops")])
      = Except.ok (format_item "Message"
            ((assoc_find [("outerMessage", PyVal.str "m"),
              ("details", PyVal.str "oops")] "outerMessage").getD (PyVal.str ""))
          ++ "\n" ++ format_item "Details" (PyVal.str "oops") ++ "\n") :=
  ⟨(C5_details_formatting [("outerMessage", PyVal.str "m"),
        ("details", PyVal.str "[\x7b\"rawStack\": \"a\"\x7d]")]
      "[\x7b\"rawStack\": \"a\"\x7d]" (by simp) rfl).1
      [("rawStack", PyVal.str "a")] [] "a" rfl rfl,
   (C5_details_formatting [("outerMessage", PyVal.str "m"),
        ("details", PyVal.str "[]")] "[]" (by simp) rfl).2.1 rfl,
   (C5_details_formatting [("outerMessage", PyVal.str "m"),
        ("details", PyVal.str "oops")] "oops" (by simp) rfl).2.2.2
      "JSONDecodeError" rfl⟩

theorem build_mkEssentials (aid rule sev fdt link : Option String) (det : String) :
    build_slack_message (PyVal.dict [("essentials", mkEssentials aid rule sev fdt link)]) det
      = Except.ok (msgOf aid rule sev fdt link det) := by
  cases aid <;> cases rule <;> cases sev <;> cases fdt <;> cases link <;> rfl

set_option maxRecDepth 8192

/-- C4 counterexample: with only `investigationLink` missing and every
other essentials value free of the letter N, the message contains no
`"N/A"` at all — the missing link renders as `"#"` — refuting that each
missing essentials field renders as `"N/A"`. -/
theorem C4_link_not_na :
    build_slack_message (PyVal.dict [("essentials", PyVal.dict
        [("alertId", PyVal.str "id-1"), ("alertRule", PyVal.str "rule-1"),
          ("severity", PyVal.str "Sev3"),
          ("firedDateTime", PyVal.str "2024-01-01T10:00:00")])]) ""
      = Except.ok ("*Azure Alert Fired: rule-1*\n\n*Severity*: Sev3\n*Date*: 2024-01-01T10:00:00Z\n*Alert ID*: id-1\n\n---------------------------------------------------\n<#|Click here to investigate in Azure Portal>") ∧
    ¬ strHas "N/A" ("*Azure Alert Fired: rule-1*\n\n*Severity*: Sev3\n*Date*: 2024-01-01T10:00:00Z\n*Alert ID*: id-1\n\n---------------------------------------------------\n<#|Click here to investigate in Azure Portal>") ∧
    strHas "<#|Click here to investigate in Azure Portal>" ("*Azure Alert Fired: rule-1*\n\n*Severity*: Sev3\n*Date*: 2024-01-01T10:00:00Z\n*Alert ID*: id-1\n\n---------------------------------------------------\n<#|Click here to investigate in Azure Portal>") := by
  refine ⟨rfl, ?_, ?_⟩
  · intro h
    exact absurd (strHas_mem h (c := 'N') (by decide)) (by decide)
  · exact ⟨("*Azure Alert Fired: rule-1*\n\n*Severity*: Sev3\n*Date*: 2024-01-01T10:00:00Z\n*Alert ID*: id-1\n\n---------------------------------------------------\n").data, [], by decide⟩

/-- C4 amended: `build_slack_message` never raises on a payload missing
any subset of the essentials fields; a missing `alertId`, `alertRule`,
`severity`, or `firedDateTime` renders as `"N/A"`, while a missing
`investigationLink` instead falls back to `"#"` in the investigation
line; no line of the template is omitted (every fixed fragment always
occurs in the output). -/
theorem C4_missing_essentials_render (aid rule sev fdt link : Option String) (det : String) :
    build_slack_message (PyVal.dict [("essentials", mkEssentials aid rule sev fdt link)]) det
      = Except.ok (msgOf aid rule sev fdt link det) ∧
    (aid = Option.none → strHas "*Alert ID*: N/A" (msgOf aid rule sev fdt link det)) ∧
    (rule = Option.none →
      strHas "*Azure Alert Fired: N/A*\n\n" (msgOf aid rule sev fdt link det)) ∧
    (sev = Option.none → strHas "*Severity*: N/A" (msgOf aid rule sev fdt link det)) ∧
    (fdt = Option.none → strHas "*Date*: N/A" (msgOf aid rule sev fdt link det)) ∧
    (link = Option.none →
      strHas "<#|Click here to investigate in Azure Portal>"
        (msgOf aid rule sev fdt link det)) ∧
    strHas "*Azure Alert Fired: " (msgOf aid rule sev fdt link det) ∧
    strHas "*Severity*: " (msgOf aid rule sev fdt link det) ∧
    strHas "*Date*: " (msgOf aid rule sev fdt link det) ∧
    strHas "*Alert ID*: " (msgOf aid rule sev fdt link det) ∧
    strHas "---------------------------------------------------\n"
      (msgOf aid rule sev fdt link det) ∧
    strHas "|Click here to investigate in Azure Portal>"
      (msgOf aid rule sev fdt link det) := by
  refine ⟨build_mkEssentials aid rule sev fdt link det,
    ?_, ?_, ?_, ?_, ?_, ?_, ?_, ?_, ?_, ?_, ?_⟩
  · intro h
    subst h
    simp only [msgOf]
    iterate 6 apply strHas_right
    apply strHas_left
    exact strHas_self _
  · intro h
    subst h
    simp only [msgOf]
    iterate 11 apply strHas_right
    exact strHas_self _
  · intro h
    subst h
    simp only [msgOf]
    iterate 10 apply strHas_right
    apply strHas_left
    exact strHas_self _
  · intro h
    subst h
    simp only [msgOf]
    iterate 8 apply strHas_right
    apply strHas_left
    exact strHas_self _
  · intro h
    subst h
    simp only [msgOf, String.append_assoc]
    iterate 21 apply strHas_left
    exact strHas_self _
  · simp only [msgOf]
    iterate 13 apply strHas_right
    apply strHas_left
    exact strHas_self _
  · simp only [msgOf]
    iterate 10 apply strHas_right
    apply strHas_left
    exact ⟨[], (sev.getD "N/A").data, rfl⟩
  · simp only [msgOf]
    iterate 8 apply strHas_right
    apply strHas_left
    exact ⟨[], (format_alert_date fdt).data, rfl⟩
  · simp only [msgOf]
    iterate 6 apply strHas_right
    apply strHas_left
    exact ⟨[], (aid.getD "N/A").data, rfl⟩
  · simp only [msgOf]
    iterate 4 apply strHas_right
    apply strHas_left
    exact strHas_self _
  · simp only [msgOf]
    apply strHas_left
    exact strHas_self _

/-- Witness for C4 at the all-fields-missing payload. -/
theorem C4_witness :
    build_slack_message (PyVal.dict [("essentials",
        mkEssentials Option.none Option.none Option.none Option.none Option.none)]) "x\n"
      = Except.ok (msgOf Option.none Option.none Option.none Option.none Option.none "x\n") ∧
    strHas "*Alert ID*: N/A"
      (msgOf Option.none Option.none Option.none Option.none Option.none "x\n") ∧
    strHas "<#|Click here to investigate in Azure Portal>"
      (msgOf Option.none Option.none Option.none Option.none Option.none "x\n") :=
  ⟨(C4_missing_essentials_render Option.none Option.none Option.none Option.none
      Option.none "x\n").1,
   (C4_missing_essentials_render Option.none Option.none Option.none Option.none
      Option.none "x\n").2.1 rfl,
   (C4_missing_essentials_render Option.none Option.none Option.none Option.none
      Option.none "x\n").2.2.2.2.2.1 rfl⟩

/-- C1: when the handler reaches the secondary fetch (the api-link
derivation succeeds on the payload) and the fetch fails with any
request error, delivery is not aborted: the fetcher returns the
sentinel `{error: ...}` dict instead of propagating, the selected
fields are empty so the details block renders as the literal
`"_No additional details found._"` line, and provided the final Slack
POST succeeds the handler returns status 200. -/
theorem C1_fetch_failure_degrades (k : String) (data l : PyVal) (msg : String)
    (hk : k ≠ "")
    (hlink : get_api_link data = Except.ok l)
    (hbuild : build_slack_message data "_No additional details found._\n"
      = Except.ok msg) :
    fetch_search_results FetchOutcome.failure
      = Except.ok (PyVal.dict [("error", PyVal.str "Failed to fetch log details.")]) ∧
    get_details_string data FetchOutcome.failure
      = Except.ok ("_No additional details found._\n", [OutboundCall.searchFetch l]) ∧
    alert_to_slack (Option.some k) (Option.some k)
        (Except.ok (PyVal.dict [("data", data)])) FetchOutcome.failure SlackOutcome.success
      = Except.ok (⟨"Alert successfully forwarded to Slack.", 200⟩,
          [OutboundCall.searchFetch l, OutboundCall.slackPost msg]) := by
  have hdet : get_details_string data FetchOutcome.failure
      = Except.ok ("_No additional details found._\n", [OutboundCall.searchFetch l]) := by
    simp [get_details_string, hlink, fetch_search_results, py_has_key, assoc_find,
      format_search_results, py_truthy, bind, Except.bind]
  refine ⟨rfl, hdet, ?_⟩
  simp [alert_to_slack, validate_function_key, hk, py_get, assoc_find, hdet, hbuild,
    send_to_slack, bind, Except.bind]

/-- Witness for C1 at a concrete payload with empty alert data. -/
theorem C1_witness :
    fetch_search_results FetchOutcome.failure
      = Except.ok (PyVal.dict [("error", PyVal.str "Failed to fetch log details.")]) ∧
    get_details_string (PyVal.dict []) FetchOutcome.failure
      = Except.ok ("_No additional details found._\n",
          [OutboundCall.searchFetch (PyVal.str "#")]) ∧
    alert_to_slack (Option.some "sec") (Option.some "sec")
        (Except.ok (PyVal.dict [("data", PyVal.dict [])]))
        FetchOutcome.failure SlackOutcome.success
      = Except.ok (⟨"Alert successfully forwarded to Slack.", 200⟩,
          [OutboundCall.searchFetch (PyVal.str "#"),
            OutboundCall.slackPost ("*Azure Alert Fired: N/A*\n\n*Severity*: N/A\n*Date*: N/A\n*Alert ID*: N/A\n\n---------------------------------------------------\n_No additional details found._\n<#|Click here to investigate in Azure Portal>")]) :=
  C1_fetch_failure_degrades "sec" (PyVal.dict []) (PyVal.str "#")
    ("*Azure Alert Fired: N/A*\n\n*Severity*: N/A\n*Date*: N/A\n*Alert ID*: N/A\n\n---------------------------------------------------\n_No additional details found._\n<#|Click here to investigate in Azure Portal>")
    (by decide) rfl rfl

theorem splitOnNL_ne_nil (cs : List Char) : splitOnNL cs ≠ [] := by
  induction cs with
  | nil => simp [splitOnNL]
  | cons c cs ih =>
    by_cases h : c = '\n' <;> simp [splitOnNL, h]

theorem splitOnNL_no_nl (cs : List Char) : ∀ l ∈ splitOnNL cs, '\n' ∉ l := by
  induction cs with
  | nil =>
    intro l hl
    simp [splitOnNL] at hl
    subst hl
    simp
  | cons c cs ih =>
    intro l hl
    by_cases h : c = '\n'
    · simp [splitOnNL, h] at hl
      rcases hl with hl | hl
      · subst hl; simp
      · exact ih l hl
    · simp [splitOnNL, h] at hl
      rcases hl with hl | hl
      · subst hl
        intro hmem
        rcases List.mem_cons.1 hmem with hx | hx
        · exact h hx.symm
        · rcases hr : splitOnNL cs with _ | ⟨p, ps⟩
          · exact splitOnNL_ne_nil cs hr
          · rw [hr] at hx
            exact ih p (by rw [hr]; exact List.mem_cons_self _ _) hx
      · rcases hr : splitOnNL cs with _ | ⟨p, ps⟩
        · rw [hr] at hl
          simp at hl
        · rw [hr] at hl
          exact ih l (by rw [hr]; exact List.mem_cons_of_mem _ hl)

theorem splitOnNL_append (l cs : List Char) (h : '\n' ∉ l) :
    splitOnNL (l ++ '\n' :: cs) = l :: splitOnNL cs := by
  induction l with
  | nil => simp [splitOnNL]
  | cons a l ih =>
    have ha : a ≠ '\n' := fun hh => h (by simp [hh])
    have hl : '\n' ∉ l := fun hh => h (by simp [hh])
    simp [splitOnNL, ha, ih hl]

theorem splitOnNL_single (l : List Char) (h : '\n' ∉ l) : splitOnNL l = [l] := by
  induction l with
  | nil => rfl
  | cons a l ih =>
    have ha : a ≠ '\n' := fun hh => h (by simp [hh])
    have hl : '\n' ∉ l := fun hh => h (by simp [hh])
    simp [splitOnNL, ha, ih hl]

theorem splitOnNL_joinNLc (ls : List (List Char)) (hne : ls ≠ [])
    (h : ∀ l ∈ ls, '\n' ∉ l) : splitOnNL (joinNLc ls) = ls := by
  induction ls with
  | nil => exact absurd rfl hne
  | cons l ls ih =>
    rcases ls with _ | ⟨l2, ls2⟩
    · exact splitOnNL_single l (h l (by simp))
    · have hj : joinNLc (l :: l2 :: ls2) = l ++ '\n' :: joinNLc (l2 :: ls2) := rfl
      rw [hj, splitOnNL_append l _ (h l (by simp)),
        ih (by simp) (fun x hx => h x (by simp [hx]))]

theorem joinNLc_append (A B : List (List Char)) (hA : A ≠ []) (hB : B ≠ []) :
    joinNLc (A ++ B) = joinNLc A ++ '\n' :: joinNLc B := by
  induction A with
  | nil => exact absurd rfl hA
  | cons l A ih =>
    rcases A with _ | ⟨l2, A2⟩
    · rcases B with _ | ⟨b, B2⟩
      · exact absurd rfl hB
      · simp [joinNLc]
    · have h1 : joinNLc ((l :: l2 :: A2) ++ B) = l ++ '\n' :: joinNLc ((l2 :: A2) ++ B) := rfl
      rw [h1, ih (by simp)]
      simp [joinNLc]

theorem joinNLc_cons_cons (l l2 : List Char) (t : List (List Char)) :
    joinNLc (l :: l2 :: t) ≠ [] := by
  have h1 : joinNLc (l :: l2 :: t) = l ++ '\n' :: joinNLc (l2 :: t) := rfl
  rw [h1]
  simp

theorem mk_data (s : String) : String.mk s.data = s := rfl

theorem dropWhile_first (p : Char → Bool) (l : List Char) :
    l.dropWhile p = [] ∨ ∃ x t, l.dropWhile p = x :: t ∧ p x = false := by
  induction l with
  | nil => exact Or.inl rfl
  | cons a l ih =>
    by_cases h : p a
    · simpa [List.dropWhile_cons, h] using ih
    · exact Or.inr ⟨a, l, by simp [List.dropWhile_cons, h], by simp [h]⟩

theorem pyStrip_getLast (s : String) :
    (pyStrip s).data = [] ∨
      ∃ c, ((pyStrip s).data).getLast? = Option.some c ∧ py_isspace c = false := by
  rcases dropWhile_first py_isspace ((s.data.dropWhile py_isspace).reverse) with h | ⟨x, t, h, hx⟩
  · exact Or.inl (by simp [pyStrip, h])
  · refine Or.inr ⟨x, ?_, hx⟩
    show (((s.data.dropWhile py_isspace).reverse.dropWhile py_isspace).reverse).getLast?
      = Option.some x
    rw [List.getLast?_reverse, h]
    rfl

theorem splitOnNL_cons_nl (cs : List Char) :
    splitOnNL ('\n' :: cs) = [] :: splitOnNL cs := by
  simp [splitOnNL]

theorem splitOnNL_cons_not (c : Char) (cs : List Char) (h : c ≠ '\n') :
    splitOnNL (c :: cs)
      = (c :: (splitOnNL cs).headD []) :: (splitOnNL cs).tail := by
  simp [splitOnNL, h]

theorem splitOnNL_getLast (cs : List Char) (hne : cs ≠ [])
    (hlast : cs.getLast? ≠ Option.some '\n') :
    (splitOnNL cs).getLast? ≠ Option.some [] := by
  induction cs with
  | nil => exact absurd rfl hne
  | cons c cs ih =>
    rcases cs with _ | ⟨d, cs2⟩
    · have hc : c ≠ '\n' := by simpa using hlast
      simp [splitOnNL, hc]
    · have h2 : (d :: cs2).getLast? ≠ Option.some '\n' := by
        rw [List.getLast?_cons_cons] at hlast
        exact hlast
      have ih2 := ih (by simp) h2
      rcases hr : splitOnNL (d :: cs2) with _ | ⟨p, ps⟩
      · exact absurd hr (splitOnNL_ne_nil _)
      · rw [hr] at ih2
        by_cases hc : c = '\n'
        · subst hc
          rw [splitOnNL_cons_nl, hr, List.getLast?_cons_cons]
          exact ih2
        · rw [splitOnNL_cons_not c _ hc, hr]
          rcases ps with _ | ⟨q, qs⟩
          · simp
          · rw [show ((c :: (p :: q :: qs).headD []) :: (p :: q :: qs).tail)
                = (c :: p) :: q :: qs from rfl]
            rw [List.getLast?_cons_cons]
            rw [List.getLast?_cons_cons] at ih2
            exact ih2

theorem pySplitlinesC_eq (cs : List Char) (hne : cs ≠ [])
    (hlast : cs.getLast? ≠ Option.some '\n') :
    pySplitlinesC cs = splitOnNL cs := by
  unfold pySplitlinesC
  rw [if_neg (by simpa using hne), if_neg (splitOnNL_getLast cs hne hlast)]

theorem map_data_mk (t : List (List Char)) : (t.map String.mk).map String.data = t := by
  induction t with
  | nil => rfl
  | cons a t ih => simp only [List.map_cons, ih]

theorem joinNLc_ne_nil_of_two (ls : List (List Char)) (h : 2 ≤ ls.length) :
    joinNLc ls ≠ [] := by
  rcases ls with _ | ⟨l, _ | ⟨l2, t⟩⟩
  · simp at h
  · simp at h
  · exact joinNLc_cons_cons l l2 t

/-- C7: the stack truncator first removes common leading indentation
and surrounding whitespace; when the cleaned line count exceeds 20 the
output is exactly the first 10 lines, a literal `" ... "` separator
line, and the last 10 lines — 21 lines in all; otherwise the cleaned
text is returned unchanged. -/
theorem C7_format_raw_stack (raw : String) :
    (20 < (pySplitlines (pyStrip (dedent raw))).length →
      pySplitlines (format_raw_stack raw)
        = (pySplitlines (pyStrip (dedent raw))).take 10 ++ [" ... "]
            ++ (pySplitlines (pyStrip (dedent raw))).drop
                ((pySplitlines (pyStrip (dedent raw))).length - 10) ∧
      (pySplitlines (format_raw_stack raw)).length = 21) ∧
    ((pySplitlines (pyStrip (dedent raw))).length ≤ 20 →
      format_raw_stack raw = pyStrip (dedent raw)) := by
  constructor
  · intro h
    have hsd : (pyStrip (dedent raw)).data ≠ [] := by
      intro hempty
      have hnil : pySplitlines (pyStrip (dedent raw)) = [] := by
        unfold pySplitlines pySplitlinesC
        rw [hempty]
        simp
      rw [hnil] at h
      simp at h
    have hlastc : (pyStrip (dedent raw)).data.getLast? ≠ Option.some '\n' := by
      rcases pyStrip_getLast (dedent raw) with hc | ⟨c, hc1, hc2⟩
      · exact absurd hc hsd
      · rw [hc1]
        intro heq
        rw [Option.some.injEq] at heq
        subst heq
        simp [py_isspace] at hc2
    have hC : pySplitlinesC (pyStrip (dedent raw)).data
        = splitOnNL (pyStrip (dedent raw)).data :=
      pySplitlinesC_eq _ hsd hlastc
    have hlines : pySplitlines (pyStrip (dedent raw))
        = (splitOnNL (pyStrip (dedent raw)).data).map String.mk := by
      unfold pySplitlines
      rw [hC]
    have hplen : 20 < (splitOnNL (pyStrip (dedent raw)).data).length := by
      rw [hlines, List.length_map] at h
      exact h
    have hAne : (splitOnNL (pyStrip (dedent raw)).data).take 10 ≠ [] := by
      have : ((splitOnNL (pyStrip (dedent raw)).data).take 10).length = 10 := by
        rw [List.length_take]
        omega
      intro hx
      rw [hx] at this
      simp at this
    have hBne : (splitOnNL (pyStrip (dedent raw)).data).drop
        ((splitOnNL (pyStrip (dedent raw)).data).length - 10) ≠ [] := by
      have : ((splitOnNL (pyStrip (dedent raw)).data).drop
          ((splitOnNL (pyStrip (dedent raw)).data).length - 10)).length = 10 := by
        rw [List.length_drop]
        omega
      intro hx
      rw [hx] at this
      simp at this
    have hA : (pySplitlines (pyStrip (dedent raw))).take 10
        = ((splitOnNL (pyStrip (dedent raw)).data).take 10).map String.mk := by
      rw [hlines, List.map_take]
    have hB : (pySplitlines (pyStrip (dedent raw))).drop
          ((pySplitlines (pyStrip (dedent raw))).length - 10)
        = ((splitOnNL (pyStrip (dedent raw)).data).drop
            ((splitOnNL (pyStrip (dedent raw)).data).length - 10)).map String.mk := by
      rw [hlines, List.map_drop, List.length_map]
    have hout : format_raw_stack raw
        = joinNL ((pySplitlines (pyStrip (dedent raw))).take 10) ++ "\n ... \n"
            ++ joinNL ((pySplitlines (pyStrip (dedent raw))).drop
                ((pySplitlines (pyStrip (dedent raw))).length - 10)) := by
      simp only [format_raw_stack]
      rw [if_pos h]
    have hdata : (format_raw_stack raw).data
        = joinNLc ((splitOnNL (pyStrip (dedent raw)).data).take 10
            ++ [" ... ".data]
            ++ (splitOnNL (pyStrip (dedent raw)).data).drop
                ((splitOnNL (pyStrip (dedent raw)).data).length - 10)) := by
      rw [hout, hA, hB]
      show joinNLc ((((splitOnNL (pyStrip (dedent raw)).data).take 10).map
            String.mk).map String.data)
          ++ "\n ... \n".data
          ++ joinNLc ((((splitOnNL (pyStrip (dedent raw)).data).drop
              ((splitOnNL (pyStrip (dedent raw)).data).length - 10)).map
            String.mk).map String.data)
        = _
      rw [map_data_mk, map_data_mk]
      rw [joinNLc_append _ _ (by simp [hAne]) hBne,
        joinNLc_append _ [" ... ".data] hAne (by simp)]
      simp [joinNLc]
    have hnonl : ∀ l ∈ (splitOnNL (pyStrip (dedent raw)).data).take 10
        ++ [" ... ".data]
        ++ (splitOnNL (pyStrip (dedent raw)).data).drop
            ((splitOnNL (pyStrip (dedent raw)).data).length - 10), '\n' ∉ l := by
      intro l hl
      rcases List.mem_append.1 hl with hl | hl
      · rcases List.mem_append.1 hl with hl | hl
        · exact splitOnNL_no_nl _ l (List.take_subset _ _ hl)
        · simp at hl
          subst hl
          decide
      · exact splitOnNL_no_nl _ l (List.drop_subset _ _ hl)
    have hlsne : (splitOnNL (pyStrip (dedent raw)).data).take 10
        ++ [" ... ".data]
        ++ (splitOnNL (pyStrip (dedent raw)).data).drop
            ((splitOnNL (pyStrip (dedent raw)).data).length - 10) ≠ [] := by
      simp [hAne]
    have hsplit : splitOnNL (format_raw_stack raw).data
        = (splitOnNL (pyStrip (dedent raw)).data).take 10
          ++ [" ... ".data]
          ++ (splitOnNL (pyStrip (dedent raw)).data).drop
              ((splitOnNL (pyStrip (dedent raw)).data).length - 10) := by
      rw [hdata]
      exact splitOnNL_joinNLc _ hlsne hnonl
    have hne2 : (format_raw_stack raw).data ≠ [] := by
      rw [hdata]
      apply joinNLc_ne_nil_of_two
      simp [List.length_append, List.length_take, List.length_drop]
      omega
    have hlastok : ((splitOnNL (pyStrip (dedent raw)).data).take 10
        ++ [" ... ".data]
        ++ (splitOnNL (pyStrip (dedent raw)).data).drop
            ((splitOnNL (pyStrip (dedent raw)).data).length - 10)).getLast?
        ≠ Option.some [] := by
      rw [List.getLast?_append_of_ne_nil _ hBne]
      have hpl : (splitOnNL (pyStrip (dedent raw)).data).getLast?
          = ((splitOnNL (pyStrip (dedent raw)).data).drop
              ((splitOnNL (pyStrip (dedent raw)).data).length - 10)).getLast? := by
        conv_lhs => rw [← List.take_append_drop
          ((splitOnNL (pyStrip (dedent raw)).data).length - 10)
          (splitOnNL (pyStrip (dedent raw)).data)]
        exact List.getLast?_append_of_ne_nil _ hBne
      rw [← hpl]
      exact splitOnNL_getLast _ hsd hlastc
    have hps : pySplitlines (format_raw_stack raw)
        = ((splitOnNL (pyStrip (dedent raw)).data).take 10
          ++ [" ... ".data]
          ++ (splitOnNL (pyStrip (dedent raw)).data).drop
              ((splitOnNL (pyStrip (dedent raw)).data).length - 10)).map String.mk := by
      unfold pySplitlines pySplitlinesC
      rw [if_neg (by simpa using hne2), hsplit, if_neg hlastok]
    constructor
    · rw [hps, hA, hB]
      simp [List.map_append]
    · rw [hps]
      simp [List.length_append, List.length_take, List.length_drop, List.length_map]
      omega
  · intro h
    simp only [format_raw_stack]
    rw [if_neg (by omega)]

/-- Witness for C7: a 25-line input yields exactly the first 10 lines,
the separator, and the last 10 lines (21 lines); a 5-line input is
returned unchanged after dedent/strip. -/
theorem C7_witness :
    pySplitlines (format_raw_stack
        "l1\nl2\nl3\nl4\nl5\nl6\nl7\nl8\nl9\nl10\nl11\nl12\nl13\nl14\nl15\nl16\nl17\nl18\nl19\nl20\nl21\nl22\nl23\nl24\nl25")
      = ["l1", "l2", "l3", "l4", "l5", "l6", "l7", "l8", "l9", "l10", " ... ",
          "l16", "l17", "l18", "l19", "l20", "l21", "l22", "l23", "l24", "l25"] ∧
    (pySplitlines (format_raw_stack
        "l1\nl2\nl3\nl4\nl5\nl6\nl7\nl8\nl9\nl10\nl11\nl12\nl13\nl14\nl15\nl16\nl17\nl18\nl19\nl20\nl21\nl22\nl23\nl24\nl25")).length
      = 21 ∧
    format_raw_stack "a\nb\nc\nd\ne" = pyStrip (dedent "a\nb\nc\nd\ne") := by
  have h25 := (C7_format_raw_stack
    "l1\nl2\nl3\nl4\nl5\nl6\nl7\nl8\nl9\nl10\nl11\nl12\nl13\nl14\nl15\nl16\nl17\nl18\nl19\nl20\nl21\nl22\nl23\nl24\nl25").1
    (by decide)
  refine ⟨?_, h25.2, (C7_format_raw_stack "a\nb\nc\nd\ne").2 (by decide)⟩
  rw [h25.1]
  decide
